import Mathlib

/-!
# Shallow embedding of the shopping subsystem of `family-hub`

This file embeds the shopping-list categorization and duplicate-reconciliation
logic of the backend (`backend/services/shopping/utils.py`,
`backend/services/shopping/crud.py`, the `ShoppingItem` / `ShoppingCategory`
models of `backend/shared/models.py` and the `ShoppingItemCreate` schema of
`backend/services/shopping/schemas.py`) as executable Lean definitions and
proves properties claimed by the specification about them.

Conventions of the embedding:
* the relational store is a `List ShoppingItem` (resp. `List ShoppingCategory`);
  SQL `SELECT ... WHERE` becomes `List.filter`, `UPDATE` becomes `List.map`,
  `DELETE` becomes `List.filter`, and SQLAlchemy's `scalar_one_or_none`
  becomes `scalarOneOrNone` (erroring on several matches, as the ORM does);
* `DECIMAL(10,2)` quantities are two-decimal fixed-point numbers: they are
  embedded exactly as integers counted in hundredths (`Decimal`, with
  `decimal n` the value of the integer `n`); the code only ever adds
  quantities and tests them against zero, both of which this scaling
  preserves exactly; nullable columns are `Option`;
* timestamps are integers counted in hours (the only arithmetic the code does
  on them is "within the last 24 hours", i.e. `checked_at > now - 24`);
* Python's truthiness-based defaulting `x or y` on quantities and strings is
  embedded by `qOrOne` / `pyStrOr` (`Decimal("0")` and `""` are falsy);
* UUID primary keys are `Nat` surrogates.
-/

set_option autoImplicit false

deriving instance DecidableEq for Except

namespace FamilyHub

/-- `startsWithList hay needle` is true when `needle` is a prefix of `hay`
(character-list version of Python string prefix testing). -/
def startsWithList : List Char → List Char → Bool
  | _, [] => true
  | [], _ :: _ => false
  | a :: as, b :: bs => a == b && startsWithList as bs

/-- `containsList needle hay` is true when `needle` occurs contiguously inside
`hay`; this is Python's `needle in hay` on strings, viewed on char lists. -/
def containsList (needle : List Char) : List Char → Bool
  | [] => needle.isEmpty
  | c :: rest => startsWithList (c :: rest) needle || containsList needle rest

/-- Python's substring test `needle in hay`. -/
def strContains (hay needle : String) : Bool :=
  containsList needle.toList hay.toList

/-- Python's `str.lower()` (character-wise; the data of this program is
ASCII, where `Char.toLower` and Python's lowering agree). -/
def pyLower (s : String) : String :=
  String.mk (s.toList.map Char.toLower)

/-- Python's `str.strip()`: drop leading and trailing whitespace. -/
def pyStrip (s : String) : String :=
  String.mk (((s.toList.dropWhile Char.isWhitespace).reverse.dropWhile
    Char.isWhitespace).reverse)

/-- `backend/services/shopping/utils.py`, `normalize_item_name`:
`name.lower().strip()`. -/
def normalize_item_name (name : String) : String :=
  pyStrip (pyLower name)

/-- `backend/services/shopping/utils.py`, `CATEGORY_KEYWORDS`: the legacy
module-level `(category, keywords)` table, in its fixed (dict insertion)
order. -/
def CATEGORY_KEYWORDS : List (String × List String) := [
  ("Produce", [
    "apple", "banana", "orange", "lemon", "lime", "grape", "strawberry", "blueberry",
    "raspberry", "mango", "pear", "peach", "plum", "cherry", "melon", "watermelon",
    "pineapple", "kiwi", "avocado", "tomato", "potato", "onion", "garlic", "carrot",
    "broccoli", "cauliflower", "cabbage", "lettuce", "spinach", "kale", "cucumber",
    "pepper", "courgette", "zucchini", "aubergine", "eggplant", "mushroom", "celery",
    "leek", "spring onion", "sweetcorn", "corn", "peas", "beans", "asparagus",
    "beetroot", "parsnip", "swede", "turnip", "radish", "ginger", "chilli",
    "herbs", "basil", "parsley", "coriander", "mint", "rosemary", "thyme", "sage"]),
  ("Dairy", [
    "milk", "cheese", "yogurt", "yoghurt", "butter", "cream", "creme fraiche",
    "sour cream", "cottage cheese", "cream cheese", "mozzarella", "cheddar",
    "parmesan", "brie", "camembert", "feta", "halloumi", "gouda", "edam",
    "double cream", "single cream", "clotted cream", "custard", "fromage frais"]),
  ("Meat", [
    "chicken", "beef", "pork", "lamb", "mince", "steak", "sausage", "bacon",
    "ham", "turkey", "duck", "goose", "venison", "rabbit", "gammon",
    "pork chop", "lamb chop", "chicken breast", "chicken thigh", "chicken wing",
    "beef joint", "pork joint", "lamb joint", "roast", "burger", "meatball"]),
  ("Fish", [
    "salmon", "cod", "haddock", "tuna", "mackerel", "sardine", "trout",
    "sea bass", "plaice", "sole", "prawns", "shrimp", "crab", "lobster",
    "mussels", "clams", "oysters", "squid", "calamari", "fish fingers",
    "fish cake", "smoked salmon", "smoked haddock", "kippers"]),
  ("Bakery", [
    "bread", "rolls", "baguette", "ciabatta", "sourdough", "pitta", "naan",
    "wrap", "tortilla", "croissant", "pain au chocolat", "brioche", "bagel",
    "muffin", "scone", "crumpet", "pancake", "waffle", "cake", "brownie",
    "cookie", "biscuit", "pastry", "pie", "tart", "doughnut", "donut"]),
  ("Frozen", [
    "frozen", "ice cream", "ice lolly", "frozen pizza", "frozen chips",
    "frozen peas", "frozen vegetables", "frozen fruit", "frozen fish",
    "frozen chicken", "frozen meal", "ready meal", "sorbet", "gelato"]),
  ("Drinks", [
    "water", "juice", "orange juice", "apple juice", "squash", "cordial",
    "cola", "coke", "pepsi", "lemonade", "sprite", "fanta", "energy drink",
    "tea", "coffee", "hot chocolate", "beer", "wine", "cider", "spirits",
    "gin", "vodka", "whisky", "rum", "prosecco", "champagne", "smoothie"]),
  ("Pantry", [
    "pasta", "spaghetti", "penne", "rice", "noodles", "couscous", "quinoa",
    "flour", "sugar", "salt", "pepper", "oil", "olive oil", "vegetable oil",
    "vinegar", "soy sauce", "worcestershire", "ketchup", "mayonnaise", "mustard",
    "honey", "jam", "marmalade", "peanut butter", "nutella", "marmite",
    "cereal", "porridge", "oats", "cornflakes", "bran flakes", "muesli",
    "baked beans", "tinned tomatoes", "chopped tomatoes", "tomato puree",
    "coconut milk", "stock", "gravy", "soup", "crisps", "nuts", "dried fruit"]),
  ("Eggs", [
    "eggs", "egg", "free range eggs", "organic eggs"]),
  ("Household", [
    "toilet paper", "kitchen roll", "tissues", "bin bags", "cling film",
    "foil", "baking paper", "washing up liquid", "dishwasher tablets",
    "laundry detergent", "fabric softener", "bleach", "surface cleaner",
    "floor cleaner", "sponge", "cloth", "mop", "brush", "soap", "hand wash",
    "shampoo", "conditioner", "shower gel", "toothpaste", "deodorant"]),
  ("Baby", [
    "nappies", "diapers", "baby wipes", "baby food", "formula", "baby milk"]),
  ("Pet", [
    "dog food", "cat food", "pet food", "cat litter", "dog treats", "cat treats"])]

/-- The inner double loop of `categorize_item`: walk the `(category, keywords)`
rules in order, returning the category of the first rule with a keyword that is
a substring of the (already lowercased) name. -/
def categorizeLoop : List (String × List String) → String → String
  | [], _ => "Other"
  | (category, keywords) :: rest, name_lower =>
    if keywords.any (fun keyword => strContains name_lower keyword) then category
    else categorizeLoop rest name_lower

/-- `backend/services/shopping/utils.py`, `categorize_item`: lowercase the
name, then first-match-wins over `CATEGORY_KEYWORDS`; `"Other"` when no
keyword matches. -/
def categorize_item (name : String) : String :=
  categorizeLoop CATEGORY_KEYWORDS (pyLower name)

/-- `backend/services/shopping/utils.py`, `DEFAULT_CATEGORIES`, projected to
the fields the embedded operations consult (`name`, `keywords`; the `icon`
and `color` strings of the source table are never read by any modeled
operation). Same fixed order as the source, ending with `("Other", [])`. -/
def DEFAULT_CATEGORIES : List (String × List String) :=
  CATEGORY_KEYWORDS ++ [("Other", [])]

/-- A `DECIMAL(10,2)` value, represented exactly as an integer number of
hundredths; `decimal n` is the decimal value of the integer `n` (so
`Decimal("1")` is `decimal 1`). -/
abbrev Decimal : Type := ℤ

/-- The `DECIMAL(10,2)` value of an integer (`n` units = `100 n` hundredths). -/
def decimal (n : ℤ) : Decimal := (100 * n : ℤ)

/-- `backend/shared/models.py`, `ShoppingItem`: one row of `shopping_items`.
`quantity` is `DECIMAL(10,2)` (nullable, see `Decimal`), `checked_at` and
`updated_at` are nullable timestamps (integer hours here), ids are `Nat`
surrogates for UUIDs. `created_at` and `recipe_id` are never consulted by the
embedded operations and are omitted. -/
structure ShoppingItem where
  id : Nat
  list_id : Nat
  tenant_id : Nat
  name : String
  name_normalized : String
  quantity : Option Decimal
  unit : Option String
  category : String
  checked : Bool
  checked_at : Option ℤ
  source : String
  added_by : Nat
  updated_at : Option ℤ
  deriving DecidableEq, Repr

/-- `backend/shared/models.py`, `ShoppingCategory`: one row of
`shopping_categories` (fields consulted by the embedded operations). -/
structure ShoppingCategory where
  id : Nat
  tenant_id : Nat
  name : String
  keywords : List String
  sort_order : Nat
  is_default : Bool
  updated_at : Option ℤ
  deriving DecidableEq, Repr

/-- `backend/services/shopping/schemas.py`, `ShoppingItemCreate`: the request
payload of the add-item endpoint. `quantity` is `Optional[Decimal]` with
default `Decimal("1")` (`none` models an explicit JSON `null`), `category`
and `source` are optional strings. -/
structure ShoppingItemCreate where
  name : String
  quantity : Option Decimal
  unit : Option String
  category : Option String
  source : Option String
  deriving DecidableEq, Repr

/-- The pydantic validation on `ShoppingItemCreate` relevant to quantities:
`quantity: Optional[Decimal] = Field(default=Decimal("1"), ge=0)` — a present
quantity must be non-negative (zero is accepted). -/
def shoppingItemCreateValid (d : ShoppingItemCreate) : Prop :=
  ∀ q : Decimal, d.quantity = some q → 0 ≤ q

/-- Python's `x or Decimal("1")` on a nullable quantity: `None` and
`Decimal("0")` are both falsy, so either becomes `Decimal("1")`. -/
def qOrOne : Option Decimal → Decimal
  | none => decimal 1
  | some q => if q = 0 then decimal 1 else q

/-- Python's `x or dflt` on a nullable string: `None` and `""` are falsy. -/
def pyStrOr : Option String → String → String
  | none, dflt => dflt
  | some s, dflt => if s = "" then dflt else s

/-- SQLAlchemy's `Result.scalar_one_or_none()`: `none` on zero rows, the row
on exactly one, and an error (`MultipleResultsFound`) on several. -/
def scalarOneOrNone {α : Type} : List α → Except String (Option α)
  | [] => .ok none
  | [x] => .ok (some x)
  | _ :: _ :: _ => .error "MultipleResultsFound"

/-- The `WHERE` clause of `find_duplicate_item`
(`backend/services/shopping/crud.py`): same list, same normalized name,
unchecked. -/
def uncheckedDup (list_id : Nat) (name_normalized : String)
    (i : ShoppingItem) : Bool :=
  i.list_id == list_id && i.name_normalized == name_normalized &&
    i.checked == false

/-- `backend/services/shopping/crud.py`, `find_duplicate_item`: the unchecked
item of the list with the given normalized name, if any. -/
def find_duplicate_item (items : List ShoppingItem) (list_id : Nat)
    (name_normalized : String) : Except String (Option ShoppingItem) :=
  scalarOneOrNone (items.filter (uncheckedDup list_id name_normalized))

/-- The `WHERE` clause of `find_recently_completed_item`: same list, same
normalized name, checked, with a non-null `checked_at` newer than
`now - hours` (SQL `checked_at > cutoff_time` is false on `NULL`, matching
the explicit `checked_at != None` conjunct). -/
def recentlyCompleted (list_id : Nat) (name_normalized : String)
    (now hours : ℤ) (i : ShoppingItem) : Bool :=
  i.list_id == list_id && i.name_normalized == name_normalized &&
    i.checked == true &&
    (match i.checked_at with
     | some t => decide (now - hours < t)
     | none => false)

/-- `backend/services/shopping/crud.py`, `find_recently_completed_item`: a
checked item of the list with the same normalized name completed within the
last `hours` hours (the caller passes the default 24). -/
def find_recently_completed_item (items : List ShoppingItem) (list_id : Nat)
    (name_normalized : String) (now : ℤ) (hours : ℤ) :
    Except String (Option ShoppingItem) :=
  scalarOneOrNone (items.filter (recentlyCompleted list_id name_normalized now hours))

/-- The merge branch of `add_item`: quantities are added with Python
truthiness defaulting (`(existing.quantity or 1) + (item_data.quantity or
1)`), `source` becomes `"multiple"`, `updated_at` is refreshed. -/
def mergedItem (existing : ShoppingItem) (item_data : ShoppingItemCreate)
    (now : ℤ) : ShoppingItem :=
  { existing with
      quantity := some (qOrOne existing.quantity + qOrOne item_data.quantity)
      source := "multiple"
      updated_at := some now }

/-- The creation branch of `add_item`: the `ShoppingItem(...)` constructor
call. `category` is the explicit argument when truthy, else
`categorize_item(name)`; `quantity` defaults to 1 by truthiness; `source`
defaults to `"manual"`; `checked`/`checked_at` take the column defaults
(`False` / `NULL`). -/
def newShoppingItem (list_id tenant_id user_id : Nat)
    (item_data : ShoppingItemCreate) (name_normalized : String)
    (new_id : Nat) : ShoppingItem :=
  { id := new_id
    list_id := list_id
    tenant_id := tenant_id
    name := item_data.name
    name_normalized := name_normalized
    quantity := some (qOrOne item_data.quantity)
    unit := item_data.unit
    category := pyStrOr item_data.category (categorize_item item_data.name)
    checked := false
    checked_at := none
    source := pyStrOr item_data.source "manual"
    added_by := user_id
    updated_at := none }

/-- The tuple returned by `add_item`:
`(item, was_merged, previous_quantity, recently_completed_duplicate)`. -/
structure AddItemResult where
  item : Option ShoppingItem
  was_merged : Bool
  previous_quantity : Option Decimal
  recently_completed : Option ShoppingItem
  deriving DecidableEq, Repr

/-- `backend/services/shopping/crud.py`, `add_item`: duplicate-handling add.
Merge into an existing unchecked duplicate; else, on a recently completed
duplicate, either return it for confirmation (`force_add = false`) or delete
it and create afresh (`force_add = true`); else create. Returns the result
tuple together with the updated item store. -/
def add_item (items : List ShoppingItem) (list_id tenant_id user_id : Nat)
    (item_data : ShoppingItemCreate) (force_add : Bool) (now : ℤ)
    (new_id : Nat) : Except String (AddItemResult × List ShoppingItem) :=
  let name_normalized := normalize_item_name item_data.name
  match find_duplicate_item items list_id name_normalized with
  | .error e => .error e
  | .ok (some existing) =>
    let updated := mergedItem existing item_data now
    .ok (⟨some updated, true, existing.quantity, none⟩,
         items.map (fun i => if i.id == existing.id then updated else i))
  | .ok none =>
    match find_recently_completed_item items list_id name_normalized now 24 with
    | .error e => .error e
    | .ok (some recently) =>
      if force_add then
        let remaining := items.filter (fun i => i.id != recently.id)
        let ni := newShoppingItem list_id tenant_id user_id item_data
          name_normalized new_id
        .ok (⟨some ni, false, none, none⟩, remaining ++ [ni])
      else
        .ok (⟨none, false, none, some recently⟩, items)
    | .ok none =>
      let ni := newShoppingItem list_id tenant_id user_id item_data
        name_normalized new_id
      .ok (⟨some ni, false, none, none⟩, items ++ [ni])

/-- `backend/services/shopping/crud.py`, `toggle_item`: flip `checked`,
set `checked_at` to now iff now checked, refresh `updated_at`. -/
def toggle_item (item : ShoppingItem) (now : ℤ) : ShoppingItem :=
  let c := !item.checked
  { item with
      checked := c
      checked_at := if c then some now else none
      updated_at := some now }

/-- `backend/services/shopping/crud.py`, `complete_shop`: count the unchecked
items of the list, mark them all checked at `now`, then count the list's
items. Returns `((items_completed, total_items), updated store)`. -/
def complete_shop (items : List ShoppingItem) (list_id tenant_id : Nat)
    (now : ℤ) : (Nat × Nat) × List ShoppingItem :=
  let inScope := fun (i : ShoppingItem) =>
    i.list_id == list_id && i.tenant_id == tenant_id
  let items_completed :=
    (items.filter (fun i => inScope i && i.checked == false)).length
  let updated := items.map (fun i =>
    if inScope i && i.checked == false then
      { i with checked := true, checked_at := some now, updated_at := some now }
    else i)
  let total_items := (updated.filter inScope).length
  ((items_completed, total_items), updated)

/-- `backend/services/shopping/crud.py`, `delete_category`: set the category
string of the tenant's items bearing the deleted category's name to
`"Other"`, then delete the category row. -/
def delete_category (items : List ShoppingItem)
    (categories : List ShoppingCategory) (category : ShoppingCategory)
    (tenant_id : Nat) : List ShoppingItem × List ShoppingCategory :=
  (items.map (fun i =>
      if i.tenant_id == tenant_id && i.category == category.name then
        { i with category := "Other" }
      else i),
   categories.filter (fun c => c.id != category.id))

/-- `backend/services/shopping/crud.py`, `add_keyword_to_category`: append
the lowercased keyword unless some stored keyword already equals it after
lowercasing. -/
def add_keyword_to_category (category : ShoppingCategory) (keyword : String)
    (now : ℤ) : ShoppingCategory :=
  let keywords := category.keywords
  if !((keywords.map pyLower).contains (pyLower keyword)) then
    { category with
        keywords := keywords ++ [pyLower keyword]
        updated_at := some now }
  else category

/-- `backend/services/shopping/crud.py`, `remove_keyword_from_category`: keep
the stored keywords whose lowercasing differs from the given keyword's. -/
def remove_keyword_from_category (category : ShoppingCategory)
    (keyword : String) (now : ℤ) : ShoppingCategory :=
  { category with
      keywords := category.keywords.filter
        (fun k => pyLower k != pyLower keyword)
      updated_at := some now }

/-- `backend/services/shopping/crud.py`, `seed_default_categories`: the
tenant's category rows seeded from `DEFAULT_CATEGORIES`, with `sort_order`
the table index (row ids are `Nat` surrogates). -/
def seed_default_categories (tenant_id : Nat) : List ShoppingCategory :=
  DEFAULT_CATEGORIES.enum.map (fun p =>
    { id := p.1
      tenant_id := tenant_id
      name := p.2.1
      keywords := p.2.2
      sort_order := p.1
      is_default := true
      updated_at := none })

/-- `backend/services/shopping/crud.py`, `get_or_create_default_categories`:
the tenant's categories (already ordered by `sort_order` by the query), or
the seeded defaults when the tenant has none. -/
def get_or_create_default_categories (categories : List ShoppingCategory)
    (tenant_id : Nat) : List ShoppingCategory :=
  if categories.isEmpty then seed_default_categories tenant_id else categories

/-- The loop of `categorize_item_for_tenant`: first rule (tenant category row)
whose lowercased keyword is a substring of the lowercased name wins. -/
def tenantCategorizeLoop : List ShoppingCategory → String → String
  | [], _ => "Other"
  | c :: rest, name_lower =>
    if c.keywords.any (fun keyword => strContains name_lower (pyLower keyword))
    then c.name
    else tenantCategorizeLoop rest name_lower

/-- `backend/services/shopping/crud.py`, `categorize_item_for_tenant`:
auto-categorize against the tenant's (sort-ordered) category rows, seeding
the defaults when the tenant has none. -/
def categorize_item_for_tenant (categories : List ShoppingCategory)
    (tenant_id : Nat) (name : String) : String :=
  tenantCategorizeLoop (get_or_create_default_categories categories tenant_id)
    (pyLower name)

/-- Spec §4.1, stated in the spec's words for comparison with
`categorize_item`: "lowercase the input name; iterate rules in a fixed
order; ... return the category of the first rule whose keyword is a
case-insensitive substring of the name. If no rule matches, return
`Other`" — keywords are stored lowercase (spec §3), so matching a keyword
against the lowercased name is the case-insensitive match. -/
def specCategorize (rules : List (String × List String)) (name : String) :
    String :=
  match rules.find? (fun rule =>
      rule.2.any (fun keyword => strContains (pyLower name) keyword)) with
  | some rule => rule.1
  | none => "Other"

/-- Spec §3 invariant on a shopping item: `checked == false` ⇔
`checked_at == null`. -/
def checkedInv (i : ShoppingItem) : Prop :=
  i.checked = false ↔ i.checked_at = none

instance decCheckedInv (i : ShoppingItem) : Decidable (checkedInv i) :=
  inferInstanceAs (Decidable (i.checked = false ↔ i.checked_at = none))

/-! ### Concrete fixtures

Rows and payloads used by the closed counterexamples and by the witnesses of
hypothesis-bearing theorems. Timestamps: `now = 100`; an item checked two
hours ago has `checked_at = 98`, one checked thirty hours ago `70`. -/

/-- An unchecked "Milk" row with quantity 2, on list 10 of tenant 5. -/
def milkRow : ShoppingItem :=
  { id := 1, list_id := 10, tenant_id := 5, name := "Milk",
    name_normalized := "milk", quantity := some (decimal 2), unit := none,
    category := "Dairy", checked := false, checked_at := none,
    source := "manual", added_by := 7, updated_at := none }

/-- An add-item payload `"milk "` (case/whitespace variant) with quantity 3. -/
def milkPayload : ShoppingItemCreate :=
  { name := "milk ", quantity := some (decimal 3), unit := none,
    category := none, source := none }

/-- A checked "Bread" row completed two hours before `now = 100`. -/
def breadCheckedRecent : ShoppingItem :=
  { id := 3, list_id := 10, tenant_id := 5, name := "Bread",
    name_normalized := "bread", quantity := some (decimal 1), unit := none,
    category := "Bakery", checked := true, checked_at := some 98,
    source := "manual", added_by := 7, updated_at := none }

/-- A checked "Bread" row completed thirty hours before `now = 100`
(outside the 24-hour window). -/
def breadCheckedOld : ShoppingItem :=
  { breadCheckedRecent with id := 9, checked_at := some 70 }

/-- An add-item payload "Bread" with no quantity/category/source given. -/
def breadPayload : ShoppingItemCreate :=
  { name := "Bread", quantity := none, unit := none,
    category := none, source := none }

/-- An add-item payload "Xyzzy" (no default keyword matches it). -/
def xyzzyPayload : ShoppingItemCreate :=
  { name := "Xyzzy", quantity := none, unit := none,
    category := none, source := none }

/-- A custom tenant category whose keyword list matches "Xyzzy". -/
def snacksCategory : ShoppingCategory :=
  { id := 0, tenant_id := 5, name := "Snacks", keywords := ["xyzzy"],
    sort_order := 0, is_default := false, updated_at := none }

/-- Tenant 5's "Dairy" category row (used to exercise category deletion;
`milkRow` bears its name). -/
def dairyCategory : ShoppingCategory :=
  { id := 2, tenant_id := 5, name := "Dairy", keywords := ["milk", "cheese"],
    sort_order := 1, is_default := true, updated_at := none }

/-- A category holding mixed-case keywords (used to exercise keyword
management). -/
def treatsCategory : ShoppingCategory :=
  { id := 4, tenant_id := 5, name := "Treats", keywords := ["Crisps", "nuts"],
    sort_order := 2, is_default := false, updated_at := none }

/-! ## Helper lemmas -/

theorem scalarOneOrNone_eq_some {α : Type} {l : List α} {x : α}
    (h : scalarOneOrNone l = .ok (some x)) : l = [x] := by
  match l with
  | [] => simp [scalarOneOrNone] at h
  | [a] =>
    simp only [scalarOneOrNone, Except.ok.injEq, Option.some.injEq] at h
    rw [h]
  | a :: b :: t => simp [scalarOneOrNone] at h

theorem filter_filter_eq_nil {α : Type} {p q : α → Bool} {l : List α}
    (h : l.filter p = []) : (l.filter q).filter p = [] := by
  rw [List.filter_eq_nil_iff] at h ⊢
  intro a ha
  exact h a (List.mem_of_mem_filter ha)

theorem categorizeLoop_eq_find (rules : List (String × List String))
    (name_lower : String) :
    categorizeLoop rules name_lower =
      match rules.find? (fun rule =>
          rule.2.any (fun keyword => strContains name_lower keyword)) with
      | some rule => rule.1
      | none => "Other" := by
  induction rules with
  | nil => rfl
  | cons r rest ih =>
    by_cases hm :
        r.2.any (fun keyword => strContains name_lower keyword) = true
    · simp [categorizeLoop, List.find?_cons, hm]
    · simp only [Bool.not_eq_true] at hm
      simp [categorizeLoop, List.find?_cons, hm, ih]

theorem add_item_merge_eq (items : List ShoppingItem) (lid tid uid : Nat)
    (d : ShoppingItemCreate) (force : Bool) (now : ℤ) (nid : Nat)
    (ex : ShoppingItem)
    (h : items.filter (uncheckedDup lid (normalize_item_name d.name)) = [ex]) :
    add_item items lid tid uid d force now nid =
      .ok (⟨some (mergedItem ex d now), true, ex.quantity, none⟩,
           items.map (fun i =>
             if i.id == ex.id then mergedItem ex d now else i)) := by
  simp only [add_item, find_duplicate_item]
  rw [h]
  rfl

theorem add_item_prompt_eq (items : List ShoppingItem) (lid tid uid : Nat)
    (d : ShoppingItemCreate) (now : ℤ) (nid : Nat) (rc : ShoppingItem)
    (h1 : items.filter (uncheckedDup lid (normalize_item_name d.name)) = [])
    (h2 : items.filter
        (recentlyCompleted lid (normalize_item_name d.name) now 24) = [rc]) :
    add_item items lid tid uid d false now nid =
      .ok (⟨none, false, none, some rc⟩, items) := by
  simp only [add_item, find_duplicate_item, find_recently_completed_item]
  rw [h1, h2]
  rfl

theorem add_item_force_eq (items : List ShoppingItem) (lid tid uid : Nat)
    (d : ShoppingItemCreate) (now : ℤ) (nid : Nat) (rc : ShoppingItem)
    (h1 : items.filter (uncheckedDup lid (normalize_item_name d.name)) = [])
    (h2 : items.filter
        (recentlyCompleted lid (normalize_item_name d.name) now 24) = [rc]) :
    add_item items lid tid uid d true now nid =
      .ok (⟨some (newShoppingItem lid tid uid d (normalize_item_name d.name)
              nid), false, none, none⟩,
           items.filter (fun i => i.id != rc.id) ++
             [newShoppingItem lid tid uid d (normalize_item_name d.name)
               nid]) := by
  simp only [add_item, find_duplicate_item, find_recently_completed_item]
  rw [h1, h2]
  rfl

theorem add_item_fresh_eq (items : List ShoppingItem) (lid tid uid : Nat)
    (d : ShoppingItemCreate) (force : Bool) (now : ℤ) (nid : Nat)
    (h1 : items.filter (uncheckedDup lid (normalize_item_name d.name)) = [])
    (h2 : items.filter
        (recentlyCompleted lid (normalize_item_name d.name) now 24) = []) :
    add_item items lid tid uid d force now nid =
      .ok (⟨some (newShoppingItem lid tid uid d (normalize_item_name d.name)
              nid), false, none, none⟩,
           items ++ [newShoppingItem lid tid uid d
             (normalize_item_name d.name) nid]) := by
  simp only [add_item, find_duplicate_item, find_recently_completed_item]
  rw [h1, h2]
  rfl

/-! ## Claim theorems -/

/-- C2, counterexample: `categorize_item "Tinned Tomatoes"` with the default
rules does NOT return `"Pantry"`; it returns `"Produce"`. -/
theorem tinned_tomatoes_not_pantry :
    categorize_item "Tinned Tomatoes" ≠ "Pantry" ∧
      categorize_item "Tinned Tomatoes" = "Produce" := by
  exact ⟨by decide, by decide⟩

/-- C2, amended: `categorize_item "Tinned Tomatoes"` with the default rules
returns `"Produce"`: the Produce rule comes first in `CATEGORY_KEYWORDS` and
its keyword `"tomato"` is a substring of `"tinned tomatoes"`, so first-match-
wins never reaches the Pantry rule's `"tinned tomatoes"` keyword. -/
theorem tinned_tomatoes_produce :
    categorize_item "Tinned Tomatoes" = "Produce" ∧
      strContains (pyLower "Tinned Tomatoes") "tomato" = true ∧
      (CATEGORY_KEYWORDS.map Prod.fst).head? = some "Produce" := by
  exact ⟨by decide, by decide, by decide⟩

/-- C6: for every name, `categorize_item` lowercases the name and returns the
category of the first rule of `CATEGORY_KEYWORDS` (in their fixed order) with
a keyword occurring in the lowercased name — exactly the spec's description,
`specCategorize` — and returns `"Other"` when nothing matches, e.g. on
`"Xyzzy"`. -/
theorem categorize_item_first_match_spec :
    (∀ name : String,
        categorize_item name = specCategorize CATEGORY_KEYWORDS name) ∧
      categorize_item "Xyzzy" = "Other" := by
  refine ⟨fun name => ?_, by decide⟩
  rw [categorize_item, specCategorize, categorizeLoop_eq_find]

/-- C3: whenever the list already holds an unchecked item `ex` with the same
normalized name, `add_item` merges instead of creating: the stored item's
quantity becomes the sum of the two quantities with a missing quantity
counting as `Decimal("1")` on either side (`qOrOne`), its source becomes
`"multiple"`, its `updated_at` is refreshed to now, and the returned merge
tuple carries `ex.quantity` — the quantity before the addition. -/
theorem add_item_merge_spec (items : List ShoppingItem) (lid tid uid : Nat)
    (d : ShoppingItemCreate) (force : Bool) (now : ℤ) (nid : Nat)
    (ex : ShoppingItem)
    (h : items.filter (uncheckedDup lid (normalize_item_name d.name)) = [ex]) :
    ∃ m : ShoppingItem,
      add_item items lid tid uid d force now nid =
        .ok (⟨some m, true, ex.quantity, none⟩,
             items.map (fun i => if i.id == ex.id then m else i)) ∧
      m.quantity = some (qOrOne ex.quantity + qOrOne d.quantity) ∧
      m.source = "multiple" ∧
      m.updated_at = some now ∧
      m.checked = ex.checked ∧ m.name_normalized = ex.name_normalized :=
  ⟨mergedItem ex d now,
   add_item_merge_eq items lid tid uid d force now nid ex h,
   rfl, rfl, rfl, rfl, rfl⟩

/-- C3, witness: adding `"milk "` (quantity 3) onto a list holding an
unchecked `"Milk"` (quantity 2) merges: previous quantity 2 is reported and
the merged row carries quantity 2 + 3 = 5 and source `"multiple"`. -/
theorem add_item_merge_spec_witness :
    (List.filter (uncheckedDup 10 (normalize_item_name milkPayload.name))
        [milkRow] = [milkRow]) ∧
    ∃ m : ShoppingItem,
      add_item [milkRow] 10 5 7 milkPayload false 100 2 =
        .ok (⟨some m, true, milkRow.quantity, none⟩,
             [milkRow].map (fun i => if i.id == milkRow.id then m else i)) ∧
      m.quantity = some (qOrOne milkRow.quantity + qOrOne milkPayload.quantity) ∧
      m.source = "multiple" ∧
      m.updated_at = some 100 ∧
      m.checked = milkRow.checked ∧ m.name_normalized = milkRow.name_normalized :=
  ⟨by decide,
   add_item_merge_spec [milkRow] 10 5 7 milkPayload false 100 2 milkRow
     (by decide)⟩

/-- C4: with `force_add = false` and no unchecked duplicate, a checked
duplicate completed within the last 24 hours makes `add_item` return the
duplicate-prompt tuple as an ordinary `.ok` value, leaving the item store
untouched; when instead no checked duplicate lies within the window — even
though an older one exists — a new unchecked item is created directly. -/
theorem add_item_prompt_spec (items : List ShoppingItem) (lid tid uid : Nat)
    (d : ShoppingItemCreate) (now : ℤ) (nid : Nat) :
    (∀ rc : ShoppingItem,
      items.filter (uncheckedDup lid (normalize_item_name d.name)) = [] →
      items.filter
          (recentlyCompleted lid (normalize_item_name d.name) now 24) = [rc] →
      add_item items lid tid uid d false now nid =
        .ok (⟨none, false, none, some rc⟩, items)) ∧
    (items.filter (uncheckedDup lid (normalize_item_name d.name)) = [] →
     items.filter
         (recentlyCompleted lid (normalize_item_name d.name) now 24) = [] →
     (∃ old ∈ items, old.list_id = lid ∧
        old.name_normalized = normalize_item_name d.name ∧
        old.checked = true ∧
        ∃ t : ℤ, old.checked_at = some t ∧ t ≤ now - 24) →
     ∃ ni : ShoppingItem,
       add_item items lid tid uid d false now nid =
         .ok (⟨some ni, false, none, none⟩, items ++ [ni]) ∧
       ni.checked = false ∧ ni.checked_at = none) := by
  constructor
  · intro rc h1 h2
    exact add_item_prompt_eq items lid tid uid d now nid rc h1 h2
  · intro h1 h2 _
    exact ⟨newShoppingItem lid tid uid d (normalize_item_name d.name) nid,
      add_item_fresh_eq items lid tid uid d false now nid h1 h2, rfl, rfl⟩

/-- C4, witness: with a checked "Bread" completed 2 hours ago the call
returns the prompt and changes nothing; with only a "Bread" completed 30
hours ago (outside the window) it creates a fresh unchecked item. -/
theorem add_item_prompt_spec_witness :
    (add_item [breadCheckedRecent] 10 5 7 breadPayload false 100 4 =
      .ok (⟨none, false, none, some breadCheckedRecent⟩,
           [breadCheckedRecent])) ∧
    (∃ ni : ShoppingItem,
      add_item [breadCheckedOld] 10 5 7 breadPayload false 100 4 =
        .ok (⟨some ni, false, none, none⟩, [breadCheckedOld] ++ [ni]) ∧
      ni.checked = false ∧ ni.checked_at = none) := by
  constructor
  · exact (add_item_prompt_spec [breadCheckedRecent] 10 5 7 breadPayload
      100 4).1 breadCheckedRecent (by decide) (by decide)
  · exact (add_item_prompt_spec [breadCheckedOld] 10 5 7 breadPayload
      100 4).2 (by decide) (by decide)
      ⟨breadCheckedOld, by decide, by decide, by decide, by decide,
       70, by decide, by decide⟩

/-- C5, counterexample: the list holds a checked "bread" completed 2 hours
ago and another completed 30 hours ago; there is no unchecked duplicate and
the recent one lies within the 24-hour window, so the claim's hypotheses
hold, yet `add_item` with `force_add = true` leaves TWO rows with normalized
name `"bread"` (the new unchecked one and the untouched 30-hour-old row),
not exactly one. -/
theorem add_item_force_leftover_row :
    ([breadCheckedRecent, breadCheckedOld].filter
        (uncheckedDup 10 (normalize_item_name breadPayload.name)) = []) ∧
    ([breadCheckedRecent, breadCheckedOld].filter
        (recentlyCompleted 10 (normalize_item_name breadPayload.name) 100 24)
      = [breadCheckedRecent]) ∧
    ¬ ((add_item [breadCheckedRecent, breadCheckedOld] 10 5 7 breadPayload
          true 100 4).map
        (fun r => (r.2.filter
          (fun i => i.name_normalized == "bread")).length) = .ok 1) ∧
    (add_item [breadCheckedRecent, breadCheckedOld] 10 5 7 breadPayload
        true 100 4).map
      (fun r => (r.2.filter
        (fun i => i.name_normalized == "bread")).length) = .ok 2 := by
  exact ⟨by decide, by decide, by decide, by decide⟩

/-- C5, amended: with `force_add = true`, no unchecked duplicate, and a
checked duplicate `rc` completed within the 24-hour window, `add_item`
deletes that stale completed row and creates exactly one new unchecked item
with the normalized name; afterwards exactly one UNCHECKED row with that
normalized name exists (checked rows completed outside the window may
remain). -/
theorem add_item_force_add_spec (items : List ShoppingItem)
    (lid tid uid : Nat) (d : ShoppingItemCreate) (now : ℤ) (nid : Nat)
    (rc : ShoppingItem)
    (h1 : items.filter (uncheckedDup lid (normalize_item_name d.name)) = [])
    (h2 : items.filter
        (recentlyCompleted lid (normalize_item_name d.name) now 24) = [rc]) :
    ∃ ni : ShoppingItem,
      add_item items lid tid uid d true now nid =
        .ok (⟨some ni, false, none, none⟩,
             items.filter (fun i => i.id != rc.id) ++ [ni]) ∧
      ni.checked = false ∧ ni.checked_at = none ∧
      ni.name_normalized = normalize_item_name d.name ∧
      (items.filter (fun i => i.id != rc.id) ++ [ni]).filter
          (uncheckedDup lid (normalize_item_name d.name)) = [ni] := by
  refine ⟨newShoppingItem lid tid uid d (normalize_item_name d.name) nid,
    add_item_force_eq items lid tid uid d now nid rc h1 h2,
    rfl, rfl, rfl, ?_⟩
  rw [List.filter_append, filter_filter_eq_nil h1]
  simp [uncheckedDup, newShoppingItem]

/-- C5 amended, witness: on the two-checked-breads list, force-adding
"Bread" deletes the recent row, creates one new unchecked row, and exactly
one unchecked "bread" row remains. -/
theorem add_item_force_add_spec_witness :
    ∃ ni : ShoppingItem,
      add_item [breadCheckedRecent, breadCheckedOld] 10 5 7 breadPayload
          true 100 4 =
        .ok (⟨some ni, false, none, none⟩,
             [breadCheckedRecent, breadCheckedOld].filter
               (fun i => i.id != breadCheckedRecent.id) ++ [ni]) ∧
      ni.checked = false ∧ ni.checked_at = none ∧
      ni.name_normalized = normalize_item_name breadPayload.name ∧
      ([breadCheckedRecent, breadCheckedOld].filter
          (fun i => i.id != breadCheckedRecent.id) ++ [ni]).filter
        (uncheckedDup 10 (normalize_item_name breadPayload.name)) = [ni] :=
  add_item_force_add_spec [breadCheckedRecent, breadCheckedOld] 10 5 7
    breadPayload 100 4 breadCheckedRecent (by decide) (by decide)

theorem add_item_ok_cases (items : List ShoppingItem) (lid tid uid : Nat)
    (d : ShoppingItemCreate) (force : Bool) (now : ℤ) (nid : Nat)
    (res : AddItemResult) (items' : List ShoppingItem)
    (h : add_item items lid tid uid d force now nid = .ok (res, items')) :
    (∃ ex : ShoppingItem,
      items.filter (uncheckedDup lid (normalize_item_name d.name)) = [ex] ∧
      res = ⟨some (mergedItem ex d now), true, ex.quantity, none⟩ ∧
      items' = items.map (fun i =>
        if i.id == ex.id then mergedItem ex d now else i)) ∨
    (∃ rc : ShoppingItem,
      res = ⟨none, false, none, some rc⟩ ∧ items' = items) ∨
    (∃ rc : ShoppingItem,
      res = ⟨some (newShoppingItem lid tid uid d (normalize_item_name d.name)
        nid), false, none, none⟩ ∧
      items' = items.filter (fun i => i.id != rc.id) ++
        [newShoppingItem lid tid uid d (normalize_item_name d.name) nid]) ∨
    (res = ⟨some (newShoppingItem lid tid uid d (normalize_item_name d.name)
        nid), false, none, none⟩ ∧
      items' = items ++
        [newShoppingItem lid tid uid d (normalize_item_name d.name) nid]) := by
  simp only [add_item] at h
  split at h
  · exact absurd h (by simp)
  · next ex heq =>
    obtain ⟨h1, h2⟩ := Prod.mk.injEq .. ▸ Except.ok.inj h
    exact .inl ⟨ex, scalarOneOrNone_eq_some heq, h1.symm, h2.symm⟩
  · split at h
    · exact absurd h (by simp)
    · next rc heq =>
      split at h
      · obtain ⟨h1, h2⟩ := Prod.mk.injEq .. ▸ Except.ok.inj h
        exact .inr (.inr (.inl ⟨rc, h1.symm, h2.symm⟩))
      · obtain ⟨h1, h2⟩ := Prod.mk.injEq .. ▸ Except.ok.inj h
        exact .inr (.inl ⟨rc, h1.symm, h2.symm⟩)
    · obtain ⟨h1, h2⟩ := Prod.mk.injEq .. ▸ Except.ok.inj h
      exact .inr (.inr (.inr ⟨h1.symm, h2.symm⟩))

/-- C1, counterexample: tenant 5 owns a category rule set whose only rule
maps keyword `"xyzzy"` to `"Snacks"`; adding `"Xyzzy"` with no explicit
category stores category `"Other"` — `add_item` consults the global
`CATEGORY_KEYWORDS` table via `categorize_item`, not the tenant's rules,
under which the Categorizer (`categorize_item_for_tenant`) yields
`"Snacks"`. Moreover an explicitly supplied empty-string category also
falls through to the global table instead of winning. -/
theorem add_item_ignores_tenant_rules :
    ((add_item [] 10 5 7 xyzzyPayload false 100 4).map
        (fun r => r.1.item.map ShoppingItem.category) = .ok (some "Other")) ∧
    categorize_item_for_tenant [snacksCategory] 5 "Xyzzy" = "Snacks" ∧
    ("Other" : String) ≠ "Snacks" ∧
    ((add_item [] 10 5 7 { xyzzyPayload with category := some "" } false
          100 4).map
        (fun r => r.1.item.map ShoppingItem.category) = .ok (some "Other")) := by
  exact ⟨by decide, by decide, by decide, by decide⟩

/-- C1, amended: for every `add_item` call that reaches the creation step,
the created item's category is the explicit `category` argument when a
non-empty one is supplied, and otherwise the result of `categorize_item` on
the item name — the Categorizer over the GLOBAL fixed `CATEGORY_KEYWORDS`
table (the tenant's own rule set is not consulted on this path). -/
theorem add_item_created_category_global (items : List ShoppingItem)
    (lid tid uid : Nat) (d : ShoppingItemCreate) (force : Bool) (now : ℤ)
    (nid : Nat) (res : AddItemResult) (items' : List ShoppingItem)
    (it : ShoppingItem)
    (h : add_item items lid tid uid d force now nid = .ok (res, items'))
    (hm : res.was_merged = false) (hi : res.item = some it) :
    it.category = pyStrOr d.category (categorize_item d.name) := by
  rcases add_item_ok_cases items lid tid uid d force now nid res items' h with
    ⟨ex, _, hres, _⟩ | ⟨rc, hres, _⟩ | ⟨rc, hres, _⟩ | ⟨hres, _⟩
  · rw [hres] at hm
    exact absurd hm (by simp)
  · rw [hres] at hi
    exact absurd hi (by simp)
  · rw [hres] at hi
    obtain rfl := Option.some.inj hi
    rfl
  · rw [hres] at hi
    obtain rfl := Option.some.inj hi
    rfl

/-- C1 amended, witness: creating "Bread" with no explicit category stores
the global-table categorization (`"Bakery"`). -/
theorem add_item_created_category_global_witness :
    (newShoppingItem 10 5 7 breadPayload
        (normalize_item_name breadPayload.name) 4).category =
      pyStrOr breadPayload.category (categorize_item breadPayload.name) :=
  add_item_created_category_global [] 10 5 7 breadPayload false 100 4
    ⟨some (newShoppingItem 10 5 7 breadPayload
        (normalize_item_name breadPayload.name) 4), false, none, none⟩
    ([] ++ [newShoppingItem 10 5 7 breadPayload
        (normalize_item_name breadPayload.name) 4])
    (newShoppingItem 10 5 7 breadPayload
        (normalize_item_name breadPayload.name) 4)
    (by decide) rfl rfl

/-- C7: every modeled shopping-item operation preserves the invariant
`checked = false ↔ checked_at = null`: (1) a successful `add_item` maps an
invariant-satisfying store to an invariant-satisfying store; (2) an item it
creates (non-merged result) has `checked = false` and no `checked_at`;
(3) `toggle_item` establishes the invariant, setting `checked_at` to now
when toggling to checked and nulling it when toggling to unchecked;
(4) `complete_shop` preserves the invariant, stamping every completed item
with `checked = true` and `checked_at = now`. -/
theorem checked_iff_checked_at_invariant :
    (∀ (items : List ShoppingItem) (lid tid uid : Nat)
        (d : ShoppingItemCreate) (force : Bool) (now : ℤ) (nid : Nat)
        (res : AddItemResult) (items' : List ShoppingItem),
      add_item items lid tid uid d force now nid = .ok (res, items') →
      (∀ i ∈ items, checkedInv i) → (∀ i ∈ items', checkedInv i)) ∧
    (∀ (items : List ShoppingItem) (lid tid uid : Nat)
        (d : ShoppingItemCreate) (force : Bool) (now : ℤ) (nid : Nat)
        (res : AddItemResult) (items' : List ShoppingItem)
        (it : ShoppingItem),
      add_item items lid tid uid d force now nid = .ok (res, items') →
      res.was_merged = false → res.item = some it →
      it.checked = false ∧ it.checked_at = none) ∧
    (∀ (i : ShoppingItem) (now : ℤ),
      checkedInv (toggle_item i now) ∧
      (i.checked = false → (toggle_item i now).checked = true ∧
        (toggle_item i now).checked_at = some now) ∧
      (i.checked = true → (toggle_item i now).checked = false ∧
        (toggle_item i now).checked_at = none)) ∧
    (∀ (items : List ShoppingItem) (lid tid : Nat) (now : ℤ),
      (∀ i ∈ items, checkedInv i) →
      (∀ i ∈ (complete_shop items lid tid now).2, checkedInv i) ∧
      (∀ i ∈ items, i.list_id = lid → i.tenant_id = tid →
        i.checked = false →
        { i with checked := true, checked_at := some now, updated_at := some now } ∈
          (complete_shop items lid tid now).2)) := by
  refine ⟨?_, ?_, ?_, ?_⟩
  · intro items lid tid uid d force now nid res items' h hinv
    rcases add_item_ok_cases items lid tid uid d force now nid res items' h
      with ⟨ex, hf, _, hit⟩ | ⟨rc, _, hit⟩ | ⟨rc, _, hit⟩ | ⟨_, hit⟩
    · subst hit
      intro i hi
      obtain ⟨j, hj, rfl⟩ := List.mem_map.1 hi
      by_cases hid : (j.id == ex.id) = true
      · have hex : ex ∈ items := by
          have : ex ∈ items.filter (uncheckedDup lid
              (normalize_item_name d.name)) := by
            rw [hf]; exact List.mem_singleton_self ex
          exact List.mem_of_mem_filter this
        simpa [hid, checkedInv, mergedItem] using hinv ex hex
      · simpa [hid] using hinv j hj
    · subst hit
      exact hinv
    · subst hit
      intro i hi
      rcases List.mem_append.1 hi with hi | hi
      · exact hinv i (List.mem_of_mem_filter hi)
      · obtain rfl := List.mem_singleton.1 hi
        simp [checkedInv, newShoppingItem]
    · subst hit
      intro i hi
      rcases List.mem_append.1 hi with hi | hi
      · exact hinv i hi
      · obtain rfl := List.mem_singleton.1 hi
        simp [checkedInv, newShoppingItem]
  · intro items lid tid uid d force now nid res items' it h hm hi
    rcases add_item_ok_cases items lid tid uid d force now nid res items' h
      with ⟨ex, _, hres, _⟩ | ⟨rc, hres, _⟩ | ⟨rc, hres, _⟩ | ⟨hres, _⟩
    · rw [hres] at hm
      exact absurd hm (by simp)
    · rw [hres] at hi
      exact absurd hi (by simp)
    · rw [hres] at hi
      obtain rfl := Option.some.inj hi
      exact ⟨rfl, rfl⟩
    · rw [hres] at hi
      obtain rfl := Option.some.inj hi
      exact ⟨rfl, rfl⟩
  · intro i now
    cases hc : i.checked <;>
      simp [toggle_item, checkedInv, hc]
  · intro items lid tid now hinv
    constructor
    · intro i hi
      obtain ⟨j, hj, rfl⟩ := List.mem_map.1 hi
      split
      · simp [checkedInv]
      · exact hinv j hj
    · intro i hi h1 h2 h3
      refine List.mem_map.2 ⟨i, hi, ?_⟩
      simp [h1, h2, h3]

/-- C7, witness: a fresh creation, a toggle of an unchecked row, and a bulk
completion, each checked on concrete stores satisfying the invariant. -/
theorem checked_iff_checked_at_invariant_witness :
    (∀ i ∈ [milkRow] ++ [newShoppingItem 10 5 7 breadPayload
        (normalize_item_name breadPayload.name) 4], checkedInv i) ∧
    ((newShoppingItem 10 5 7 breadPayload
        (normalize_item_name breadPayload.name) 4).checked = false ∧
      (newShoppingItem 10 5 7 breadPayload
        (normalize_item_name breadPayload.name) 4).checked_at = none) ∧
    (checkedInv (toggle_item milkRow 100) ∧
      (toggle_item milkRow 100).checked = true ∧
      (toggle_item milkRow 100).checked_at = some 100) ∧
    (∀ i ∈ (complete_shop [milkRow, breadCheckedRecent] 10 5 100).2,
      checkedInv i) := by
  refine ⟨?_, ?_, ?_, ?_⟩
  · exact checked_iff_checked_at_invariant.1 [milkRow] 10 5 7 breadPayload
      false 100 4
      ⟨some (newShoppingItem 10 5 7 breadPayload
          (normalize_item_name breadPayload.name) 4), false, none, none⟩
      ([milkRow] ++ [newShoppingItem 10 5 7 breadPayload
          (normalize_item_name breadPayload.name) 4])
      (by decide) (by decide)
  · exact checked_iff_checked_at_invariant.2.1 [milkRow] 10 5 7 breadPayload
      false 100 4
      ⟨some (newShoppingItem 10 5 7 breadPayload
          (normalize_item_name breadPayload.name) 4), false, none, none⟩
      ([milkRow] ++ [newShoppingItem 10 5 7 breadPayload
          (normalize_item_name breadPayload.name) 4])
      (newShoppingItem 10 5 7 breadPayload
          (normalize_item_name breadPayload.name) 4)
      (by decide) rfl rfl
  · exact ⟨(checked_iff_checked_at_invariant.2.2.1 milkRow 100).1,
      (checked_iff_checked_at_invariant.2.2.1 milkRow 100).2.1 rfl⟩
  · exact (checked_iff_checked_at_invariant.2.2.2 [milkRow,
      breadCheckedRecent] 10 5 100 (by decide)).1

/-- C8: deleting a tenant's category rewrites the category string of every
item of that tenant bearing the deleted name to `"Other"`, leaves all other
items untouched, removes the category row, and (since the route layer
forbids deleting `"Other"` itself, hence the hypothesis) afterwards no item
of the tenant carries the deleted category's name. -/
theorem delete_category_spec (items : List ShoppingItem)
    (categories : List ShoppingCategory) (category : ShoppingCategory)
    (tid : Nat) (hname : category.name ≠ "Other") :
    (∀ i ∈ items, i.tenant_id = tid → i.category = category.name →
      { i with category := "Other" } ∈
        (delete_category items categories category tid).1) ∧
    (∀ i ∈ items, ¬(i.tenant_id = tid ∧ i.category = category.name) →
      i ∈ (delete_category items categories category tid).1) ∧
    (∀ i ∈ (delete_category items categories category tid).1,
      i.tenant_id = tid → i.category ≠ category.name) ∧
    (∀ c ∈ (delete_category items categories category tid).2,
      c.id ≠ category.id) := by
  refine ⟨?_, ?_, ?_, ?_⟩
  · intro i hi h1 h2
    refine List.mem_map.2 ⟨i, hi, ?_⟩
    simp [h1, h2]
  · intro i hi h
    refine List.mem_map.2 ⟨i, hi, ?_⟩
    split
    · next hcond =>
      refine absurd ?_ h
      simpa using hcond
    · rfl
  · intro i hi
    obtain ⟨j, hj, rfl⟩ := List.mem_map.1 hi
    split
    · intro _ hc
      exact hname hc.symm
    · next hcond =>
      intro h1 hc
      have : ¬(j.tenant_id = tid ∧ j.category = category.name) := by
        simpa using hcond
      exact this ⟨h1, hc⟩
  · intro c hc
    have := List.of_mem_filter hc
    simpa using this

/-- C8, witness: deleting tenant 5's "Dairy" category moves the "Milk" row
to `"Other"`, keeps the "Bread" row unchanged, leaves no "Dairy" item of
tenant 5, and drops the category row. -/
theorem delete_category_spec_witness :
    ({ milkRow with category := "Other" } ∈
      (delete_category [milkRow, breadCheckedRecent]
        [dairyCategory, snacksCategory] dairyCategory 5).1) ∧
    (breadCheckedRecent ∈
      (delete_category [milkRow, breadCheckedRecent]
        [dairyCategory, snacksCategory] dairyCategory 5).1) ∧
    (∀ i ∈ (delete_category [milkRow, breadCheckedRecent]
        [dairyCategory, snacksCategory] dairyCategory 5).1,
      i.tenant_id = 5 → i.category ≠ dairyCategory.name) ∧
    (∀ c ∈ (delete_category [milkRow, breadCheckedRecent]
        [dairyCategory, snacksCategory] dairyCategory 5).2,
      c.id ≠ dairyCategory.id) := by
  have h := delete_category_spec [milkRow, breadCheckedRecent]
    [dairyCategory, snacksCategory] dairyCategory 5 (by decide)
  exact ⟨h.1 milkRow (by decide) rfl rfl,
    h.2.1 breadCheckedRecent (by decide) (by decide),
    h.2.2.1, h.2.2.2⟩

/-- C9: `add_keyword_to_category` stores the lowercased keyword, appending
it only when no stored keyword already equals it case-insensitively (else
the keyword list is unchanged); `remove_keyword_from_category` keeps exactly
the stored keywords differing case-insensitively from the given one. -/
theorem keyword_case_insensitive_spec (category : ShoppingCategory)
    (keyword : String) (now : ℤ) :
    ((∃ k ∈ category.keywords, pyLower k = pyLower keyword) →
      (add_keyword_to_category category keyword now).keywords =
        category.keywords) ∧
    ((¬ ∃ k ∈ category.keywords, pyLower k = pyLower keyword) →
      (add_keyword_to_category category keyword now).keywords =
        category.keywords ++ [pyLower keyword]) ∧
    (∀ x : String,
      x ∈ (remove_keyword_from_category category keyword now).keywords ↔
        (x ∈ category.keywords ∧ pyLower x ≠ pyLower keyword)) := by
  refine ⟨?_, ?_, ?_⟩
  · intro h
    have hc : ((category.keywords.map pyLower).contains
        (pyLower keyword)) = true := by
      obtain ⟨k, hk, he⟩ := h
      exact List.elem_eq_true_of_mem (he ▸ List.mem_map_of_mem pyLower hk)
    simp only [add_keyword_to_category]
    rw [hc]
    simp
  · intro h
    have hc : ((category.keywords.map pyLower).contains
        (pyLower keyword)) = false := by
      rw [Bool.eq_false_iff]
      intro hmem
      obtain ⟨k, hk, he⟩ := List.mem_map.1 (List.mem_of_elem_eq_true hmem)
      exact h ⟨k, hk, he⟩
    simp only [add_keyword_to_category]
    rw [hc]
    simp
  · intro x
    simp [remove_keyword_from_category, List.mem_filter, bne_iff_ne]

/-- C9, witness: on keywords `["Crisps", "nuts"]`, adding `"CRISPS"` changes
nothing, adding `"Figs"` appends the lowercased `"figs"`, and removing
`"CRISPS"` case-insensitively drops the stored `"Crisps"`. -/
theorem keyword_case_insensitive_spec_witness :
    ((add_keyword_to_category treatsCategory "CRISPS" 100).keywords =
      treatsCategory.keywords) ∧
    ((add_keyword_to_category treatsCategory "Figs" 100).keywords =
      treatsCategory.keywords ++ [pyLower "Figs"]) ∧
    ("Crisps" ∈ (remove_keyword_from_category treatsCategory "CRISPS"
        100).keywords ↔
      ("Crisps" ∈ treatsCategory.keywords ∧
        pyLower "Crisps" ≠ pyLower "CRISPS")) := by
  refine ⟨?_, ?_, ?_⟩
  · exact (keyword_case_insensitive_spec treatsCategory "CRISPS" 100).1
      ⟨"Crisps", by decide, by decide⟩
  · exact (keyword_case_insensitive_spec treatsCategory "Figs" 100).2.1
      (by decide)
  · exact (keyword_case_insensitive_spec treatsCategory "CRISPS"
      100).2.2 "Crisps"

theorem add_item_congr_quantity (items : List ShoppingItem)
    (lid tid uid : Nat) (force : Bool) (now : ℤ) (nid : Nat)
    (d1 d2 : ShoppingItemCreate) (hn : d1.name = d2.name)
    (hu : d1.unit = d2.unit) (hc : d1.category = d2.category)
    (hs : d1.source = d2.source) (hq : qOrOne d1.quantity = qOrOne d2.quantity) :
    add_item items lid tid uid d1 force now nid =
      add_item items lid tid uid d2 force now nid := by
  cases d1
  cases d2
  simp only at hn hu hc hs
  subst hn
  subst hu
  subst hc
  subst hs
  simp only [add_item, mergedItem, newShoppingItem]
  rw [hq]

/-- C10: a quantity of exactly `Decimal("0")` — accepted by the schema,
whose only constraint is `quantity ≥ 0` — behaves exactly like an absent
quantity: the whole `add_item` call (merge or create, any state) returns the
same result as with `quantity = null`, a created item receives quantity
`Decimal("1")`, and a zero stored quantity likewise contributes
`Decimal("1")` to a merge sum, because `x or Decimal("1")` defaulting uses
truthiness and `Decimal("0")` is falsy. -/
theorem zero_quantity_as_absent :
    (∀ (items : List ShoppingItem) (lid tid uid : Nat) (name : String)
        (unit cat src : Option String) (force : Bool) (now : ℤ) (nid : Nat),
      add_item items lid tid uid ⟨name, some 0, unit, cat, src⟩ force now
          nid =
        add_item items lid tid uid ⟨name, none, unit, cat, src⟩ force now
          nid) ∧
    (∀ (name : String) (unit cat src : Option String),
      shoppingItemCreateValid ⟨name, some 0, unit, cat, src⟩) ∧
    (qOrOne (some 0) = decimal 1 ∧ qOrOne none = decimal 1) ∧
    (∀ (lid tid uid : Nat) (name : String) (unit cat src : Option String)
        (nn : String) (nid : Nat),
      (newShoppingItem lid tid uid ⟨name, some 0, unit, cat, src⟩ nn
          nid).quantity = some (decimal 1)) ∧
    (∀ (ex : ShoppingItem) (d : ShoppingItemCreate) (now : ℤ),
      ex.quantity = some 0 →
      (mergedItem ex d now).quantity =
        some (decimal 1 + qOrOne d.quantity)) := by
  refine ⟨?_, ?_, ⟨rfl, rfl⟩, ?_, ?_⟩
  · intro items lid tid uid name unit cat src force now nid
    exact add_item_congr_quantity items lid tid uid force now nid _ _
      rfl rfl rfl rfl rfl
  · intro name unit cat src q hq
    obtain rfl := Option.some.inj hq
    exact le_refl 0
  · intro lid tid uid name unit cat src nn nid
    rfl
  · intro ex d now hex
    simp [mergedItem, qOrOne, hex]

/-- C10, witness: merging onto a stored zero quantity contributes
`Decimal("1")`, and the zero-quantity payload is schema-valid. -/
theorem zero_quantity_as_absent_witness :
    (mergedItem { milkRow with quantity := some 0 } breadPayload
        100).quantity = some (decimal 1 + qOrOne breadPayload.quantity) ∧
    shoppingItemCreateValid ⟨"Bread", some 0, none, none, none⟩ ∧
    (add_item [] 10 5 7 ⟨"Bread", some 0, none, none, none⟩ false 100 4 =
      add_item [] 10 5 7 ⟨"Bread", none, none, none, none⟩ false 100 4) :=
  ⟨zero_quantity_as_absent.2.2.2.2 { milkRow with quantity := some 0 }
      breadPayload 100 rfl,
   zero_quantity_as_absent.2.1 "Bread" none none none,
   zero_quantity_as_absent.1 [] 10 5 7 "Bread" none none none false 100 4⟩

end FamilyHub
